import Mathlib

/-!
Verification of the report-generation pipeline of `ReportesComponent`
(`src/Frontend/src/app/pages/reportes/reportes.ts`).

The component is embedded shallowly:
  * JavaScript runtime values that can appear in a backend record are the
    inductive type `JSVal`; a record is an association list of fields.
  * Component fields (`tipoReporte`, `datosReporte`, `filtros`, `loading`,
    `error`, `estadisticasResumen`, `tituloReporte`) form the `State`
    structure; each method becomes a function on `State`.
  * A JavaScript expression that can throw a `TypeError` (such as
    `value?.toLowerCase()` applied to a number) is embedded in
    `Except String`; `.error` is a thrown exception.
  * The asynchronous `http.get(...).subscribe(...)` flow of
    `generarReporte` is split into the synchronous prefix
    (`generarReporteStart`, which plans the URL, mutates the state and
    issues the request) and the success callback (`onFetchSuccess`).
    A `setTimeout(() => this.error = null, 3000)` call is modelled as a
    returned `Bool` flag saying that a clear of the error was scheduled;
    the timer firing is the function `clearError`.
  * Browser built-ins used by the code (`Date.parse` / `toLocaleString`,
    `Intl.NumberFormat`, `JSON.stringify`) are external collaborators and
    enter as parameters collected in `JSEnv`.
-/

/-- A JavaScript value as it can occur in a backend record. -/
inductive JSVal where
  | vnull
  | vundefined
  | vstr (s : String)
  | vnum (n : Int)
  | vbool (b : Bool)
  | vobj (fields : List (String × JSVal))

/-- A raw backend record: an open mapping of field name to value. -/
def Record := List (String × JSVal)

/-- Reading `item[key]`: a missing field is `undefined`. -/
def jsLookup (r : Record) (key : String) : JSVal :=
  match r.find? (fun p => p.1 == key) with
  | some p => p.2
  | none => .vundefined

/-- ASCII lowering of one character, as `String.prototype.toLowerCase`
does on the ASCII range (all status and filter tokens in the source are
ASCII). -/
def charLower (c : Char) : Char :=
  if 65 ≤ c.toNat && c.toNat ≤ 90 then Char.ofNat (c.toNat + 32) else c

/-- Lowering of a whole string (`s.toLowerCase()`). -/
def strLower (s : String) : String := String.mk (s.toList.map charLower)

/-- ASCII raising of one character (`toUpperCase` on the ASCII range). -/
def charUpper (c : Char) : Char :=
  if 97 ≤ c.toNat && c.toNat ≤ 122 then Char.ofNat (c.toNat - 32) else c

/-- Tests whether `pat` starts the character list `l`. -/
def startsWithChars : List Char → List Char → Bool
  | [], _ => true
  | _ :: _, [] => false
  | a :: pat, b :: l => a == b && startsWithChars pat l

/-- Tests whether `pat` occurs inside the character list `l`. -/
def hasSubChars (pat : List Char) : List Char → Bool
  | [] => startsWithChars pat []
  | c :: l => startsWithChars pat (c :: l) || hasSubChars pat l

/-- Substring test, embedding `key.includes(pat)`. -/
def strContains (s pat : String) : Bool := hasSubChars pat.toList s.toList

/-- The `filtros` object of the component: seven string fields, the empty
string meaning "no constraint" (JavaScript falsiness of `''`). -/
structure Filtros where
  fechaInicio : String
  fechaFin : String
  estado : String
  estadoPedido : String
  tipoVehiculo : String
  clienteId : String
  conductorId : String

/-- JavaScript truthiness of a string: every string except `''`. -/
def truthy (s : String) : Bool := s != ""

/-- One entry of `estadisticasResumen`: a labelled numeric statistic. -/
structure Stat where
  label : String
  value : Nat

/-- The component state: every mutable field of `ReportesComponent`. -/
structure State where
  tipoReporte : String
  datosReporte : List Record
  tituloReporte : String
  loading : Bool
  error : Option String
  filtros : Filtros
  estadisticasResumen : List Stat

/-- The configured base address (`apiUrl` field of the component). -/
def apiUrl : String := "http://localhost:8000/api/v1"

/-- Embeds `tipo.charAt(0).toUpperCase() + tipo.slice(1)`. -/
def capitalizeFirst (s : String) : String :=
  match s.toList with
  | [] => ""
  | c :: rest => String.mk (charUpper c :: rest)

/-- Embeds `seleccionarReporte(tipo)` (reportes.ts lines 38-44). -/
def seleccionarReporte (st : State) (tipo : String) : State :=
  { st with
    tipoReporte := tipo
    datosReporte := []
    error := none
    estadisticasResumen := []
    tituloReporte := "Reporte de " ++ capitalizeFirst tipo }

/-- Embeds `limpiarFiltros()` (reportes.ts lines 152-164). -/
def limpiarFiltros (st : State) : State :=
  { st with
    filtros := { fechaInicio := "", fechaFin := "", estado := "",
                 estadoPedido := "", tipoVehiculo := "", clienteId := "",
                 conductorId := "" }
    datosReporte := []
    estadisticasResumen := [] }

/-- The URL and query parameters `generarReporte` computes before calling
`http.get` (reportes.ts lines 49-77).  The final case is every category
outside the four known ones: `url` stays the initial `''` and no
parameters are set. -/
def planQuery (tipoReporte : String) (f : Filtros) :
    String × List (String × String) :=
  if tipoReporte == "pedidos" then
    if truthy f.fechaInicio && truthy f.fechaFin then
      (apiUrl ++ "/reports/orders-by-date",
        [("start_date", f.fechaInicio), ("end_date", f.fechaFin)])
    else if truthy f.clienteId then
      (apiUrl ++ "/reports/orders-by-client/" ++ f.clienteId, [])
    else
      (apiUrl ++ "/orders", [])
  else if tipoReporte == "clientes" then
    (apiUrl ++ "/clients", [])
  else if tipoReporte == "vehiculos" then
    (apiUrl ++ "/vehicles", [])
  else if tipoReporte == "conductores" then
    (apiUrl ++ "/reports/routes-completed-by-driver/" ++
      (if truthy f.conductorId then f.conductorId else "1"), [])
  else
    ("", [])

/-- The HTTP request `generarReporte` hands to `this.http.get`. -/
structure Request where
  url : String
  params : List (String × String)

/-- The synchronous prefix of `generarReporte` (reportes.ts lines 46-81):
clear the error, raise the loading flag, plan the URL, and issue the GET
request.  The request is issued unconditionally, whatever `tipoReporte`
is; for an unknown category the URL is the empty string. -/
def generarReporteStart (st : State) : State × Request :=
  let (url, params) := planQuery st.tipoReporte st.filtros
  ({ st with error := none, loading := true }, { url := url, params := params })

/-- Embeds `item.status?.toLowerCase()`: `undefined` when the field is
null or missing, the lowered string when it is a string, and a thrown
`TypeError` when it is any other value (optional chaining only guards
null and undefined; calling `toLowerCase` on a number, boolean or object
throws). -/
def statusLowerE (r : Record) : Except String (Option String) :=
  match jsLookup r "status" with
  | .vnull => .ok none
  | .vundefined => .ok none
  | .vstr s => .ok (some (strLower s))
  | _ => .error "TypeError: toLowerCase is not a function"

/-- Evaluates `statusLowerE` over a whole result set, stopping at the
first record whose status access throws — the order in which the
JavaScript `filter` callbacks would hit the same exception. -/
def mapStatuses : List Record → Except String (List (Option String))
  | [] => .ok []
  | r :: rs =>
    match statusLowerE r with
    | .error e => .error e
    | .ok os =>
      match mapStatuses rs with
      | .error e => .error e
      | .ok ss => .ok (os :: ss)

/-- The completed bucket of `calcularEstadisticas` (reportes.ts line 170). -/
def completadosList : List String := ["completado", "entregado", "delivered"]

/-- The pending bucket of `calcularEstadisticas` (reportes.ts line 173). -/
def pendientesList : List String := ["pendiente", "pending"]

/-- The in-progress bucket of `calcularEstadisticas` (reportes.ts line 176). -/
def enProcesoList : List String := ["asignado", "en_proceso", "in_transit"]

/-- Embeds `bucket.includes(status?.toLowerCase())`: `includes(undefined)`
on a list of strings is `false`. -/
def inBucket (bucket : List String) : Option String → Bool
  | some s => bucket.contains s
  | none => false

/-- Core of `calcularEstadisticas` (reportes.ts lines 166-214): the new
`estadisticasResumen` computed from the category and the current result
set.  `prev` is the previous value of `estadisticasResumen`, which the
method leaves untouched when the category is none of the four known ones.
The status of every record is read through `?.toLowerCase()`, so a single
scan (`mapStatuses`) is taken first; the JavaScript code makes one pure
`filter` pass per bucket over the same unchanged array, which reads the
same statuses. -/
def calcStats (tipo : String) (datos : List Record) (prev : List Stat) :
    Except String (List Stat) :=
  if tipo == "pedidos" then
    match mapStatuses datos with
    | .error e => .error e
    | .ok ss =>
      .ok [{ label := "Total", value := datos.length },
           { label := "Completados", value := (ss.filter (inBucket completadosList)).length },
           { label := "En Proceso", value := (ss.filter (inBucket enProcesoList)).length },
           { label := "Pendientes", value := (ss.filter (inBucket pendientesList)).length }]
  else if tipo == "clientes" then
    match mapStatuses datos with
    | .error e => .error e
    | .ok ss =>
      let total := datos.length
      let activos := (ss.filter (fun os => os == some "activo")).length
      .ok [{ label := "Total", value := total },
           { label := "Activos", value := activos },
           { label := "Inactivos", value := total - activos }]
  else if tipo == "vehiculos" then
    match mapStatuses datos with
    | .error e => .error e
    | .ok ss =>
      let total := datos.length
      let disponibles := (ss.filter (fun os => os == some "disponible")).length
      .ok [{ label := "Total", value := total },
           { label := "Disponibles", value := disponibles },
           { label := "No Disponibles", value := total - disponibles }]
  else if tipo == "conductores" then
    .ok [{ label := "Rutas Completadas", value := datos.length }]
  else
    .ok prev

/-- Embeds the method `calcularEstadisticas()` acting on the component
state. -/
def calcularEstadisticas (st : State) : Except String State :=
  match calcStats st.tipoReporte st.datosReporte st.estadisticasResumen with
  | .error e => .error e
  | .ok stats => .ok { st with estadisticasResumen := stats }

/-- The `estadoMap` synonym table of the orders filter (reportes.ts lines
121-126). -/
def estadoMap (k : String) : Option (List String) :=
  if k == "en_proceso" then some ["en_proceso", "asignado", "in_transit"]
  else if k == "pendiente" then some ["pendiente", "pending"]
  else if k == "completado" then some ["completado", "entregado", "delivered"]
  else if k == "cancelado" then some ["cancelado", "cancelled"]
  else none

/-- Keeps the records whose `field` value, lowered, lies in `targets`,
embedding `datos.filter(item => targets.includes(item[field]?.toLowerCase()))`.
A null or missing field compares as `undefined` and never matches; a
non-string field throws. -/
def filterByFieldIn (field : String) (targets : List String) :
    List Record → Except String (List Record)
  | [] => .ok []
  | r :: rs =>
    let keepE : Except String Bool :=
      match jsLookup r field with
      | .vnull => .ok false
      | .vundefined => .ok false
      | .vstr s => .ok (targets.contains (strLower s))
      | _ => .error "TypeError: toLowerCase is not a function"
    match keepE with
    | .error e => .error e
    | .ok keep =>
      match filterByFieldIn field targets rs with
      | .error e => .error e
      | .ok rest => .ok (if keep then r :: rest else rest)

/-- The client-side filtering stage of the `subscribe` callback
(reportes.ts lines 110-140): clients filtered by status, orders by the
synonym-expanded order status, vehicles by vehicle type; every other
combination is the identity.  An exact case-insensitive match in the
source is a membership test in a one-element list. -/
def aplicarFiltros (tipo : String) (f : Filtros) (data : List Record) :
    Except String (List Record) :=
  let step1 : Except String (List Record) :=
    if tipo == "clientes" && truthy f.estado then
      filterByFieldIn "status" [strLower f.estado] data
    else .ok data
  match step1 with
  | .error e => .error e
  | .ok d1 =>
    let step2 : Except String (List Record) :=
      if tipo == "pedidos" && truthy f.estadoPedido then
        let estadosBuscar :=
          (estadoMap (strLower f.estadoPedido)).getD [strLower f.estadoPedido]
        filterByFieldIn "status" estadosBuscar d1
      else .ok d1
    match step2 with
    | .error e => .error e
    | .ok d2 =>
      if tipo == "vehiculos" && truthy f.tipoVehiculo then
        filterByFieldIn "vehicle_type" [strLower f.tipoVehiculo] d2
      else .ok d2

/-- The `subscribe` success callback of `generarReporte` (reportes.ts
lines 105-149): clear `loading`, filter the raw data, store it, recompute
the statistics, and — when filtering emptied a non-empty response — set
the transient informational message and schedule its clearing
(`setTimeout(() => this.error = null, 3000)`).  The returned `Bool` is
true exactly when that timer was scheduled. -/
def onFetchSuccess (st : State) (data : List Record) :
    Except String (State × Bool) :=
  let st1 := { st with loading := false }
  match aplicarFiltros st1.tipoReporte st1.filtros data with
  | .error e => .error e
  | .ok datosFiltrados =>
    let st2 := { st1 with datosReporte := datosFiltrados }
    match calcularEstadisticas st2 with
    | .error e => .error e
    | .ok st3 =>
      if st3.datosReporte.length == 0 && data.length > 0 then
        .ok ({ st3 with error := some "No hay resultados con los filtros aplicados" }, true)
      else
        .ok (st3, false)

/-- The scheduled timer firing: `this.error = null`. -/
def clearError (st : State) : State := { st with error := none }

/-- The shape of the error object inspected by the `catchError` handler. -/
structure HttpErr where
  status : Int
  detail : Option String
  message : Option String

/-- The message classification of the `catchError` handler (reportes.ts
lines 83-103). -/
def mensajeError (err : HttpErr) : String :=
  if err.status == 0 then
    "🔴 No se puede conectar al servidor. Verifica que esté corriendo en http://localhost:8000"
  else if err.status == 404 then
    "Endpoint no encontrado. Verifica la configuración del backend."
  else if err.status == 500 then
    "Error interno del servidor: " ++ err.detail.getD "Error desconocido"
  else
    err.detail.getD (err.message.getD "Error al generar el reporte.")

/-- The `catchError` handler: classify the failure, store the message,
clear `loading`.  (It then returns `of([])`, so `onFetchSuccess` runs
afterwards with an empty data array.) -/
def onFetchError (st : State) (err : HttpErr) : State :=
  { st with error := some (mensajeError err), loading := false }

/-- The browser built-ins `getColumnValue` and the exporter lean on; they
live outside the repository, so they are parameters of the embedding.
`dateParse` is `Date.parse` on a string (`none` = invalid date, NaN time
value); `renderDate` is `Date.prototype.toLocaleString` with the fixed
es-CO options on a valid time value; `formatCurrency` is the
`Intl.NumberFormat` COP formatter; `stringifyObj` is `JSON.stringify` on
an object. -/
structure JSEnv where
  dateParse : String → Option Int
  renderDate : Int → String
  formatCurrency : Int → String
  stringifyObj : List (String × JSVal) → String

/-- Embeds `new Date(value)` for the non-null values reaching the date
branch of `getColumnValue`: a number is a time value, a boolean coerces
to 0 or 1, a string goes through `Date.parse`, and a plain object
stringifies to text no date grammar accepts, hence an invalid date.  The
constructor itself never throws. -/
def jsToDate (dateParse : String → Option Int) : JSVal → Option Int
  | .vnum n => some n
  | .vbool b => some (if b then 1 else 0)
  | .vstr s => dateParse s
  | _ => none

/-- Embeds `value?.toLowerCase()` for a value already known not to be
null or undefined: strings lower, anything else throws. -/
def jsToLower : JSVal → Except String String
  | .vstr s => .ok (strLower s)
  | _ => .error "TypeError: toLowerCase is not a function"

/-- The `statusMap` display table of `getColumnValue` (reportes.ts lines
279-287). -/
def statusMap (s : String) : Option String :=
  if s == "pendiente" then some "Pendiente"
  else if s == "asignado" then some "Asignado"
  else if s == "entregado" then some "Entregado"
  else if s == "cancelado" then some "Cancelado"
  else if s == "activo" then some "Activo"
  else if s == "inactivo" then some "Inactivo"
  else if s == "disponible" then some "Disponible"
  else none

/-- The `priorityMap` display table of `getColumnValue` (reportes.ts
lines 293-297). -/
def priorityMap (s : String) : Option String :=
  if s == "alta" then some "Alta"
  else if s == "media" then some "Media"
  else if s == "baja" then some "Baja"
  else none

/-- Embeds `getColumnValue(item, key)` (reportes.ts lines 258-311).
Notes on the date branch: under JavaScript semantics neither the `Date`
constructor nor `toLocaleString` throws; an unparseable value yields an
invalid date whose `toLocaleString` is the fixed string "Invalid Date",
so the catch clause around the branch, which would return the raw value,
is unreachable.
The `key === 'value' && typeof value === 'number'` test is merged with
the trailing `typeof value === 'object'` test into one match on the
value: for the key `value` a number renders as currency, an object
stringifies, and everything else falls through unchanged, exactly the
composition of the two source tests. -/
def getColumnValue (env : JSEnv) (item : Record) (key : String) :
    Except String JSVal :=
  match jsLookup item key with
  | .vnull => .ok (.vstr "-")
  | .vundefined => .ok (.vstr "-")
  | v =>
    if strContains key "date" || strContains key "_at" then
      .ok (.vstr (match jsToDate env.dateParse v with
        | some t => env.renderDate t
        | none => "Invalid Date"))
    else if key == "status" then
      match jsToLower v with
      | .error e => .error e
      | .ok low =>
        .ok (match statusMap low with
          | some lbl => .vstr lbl
          | none => v)
    else if key == "priority" then
      match jsToLower v with
      | .error e => .error e
      | .ok low =>
        .ok (match priorityMap low with
          | some lbl => .vstr lbl
          | none => v)
    else if key == "value" then
      match v with
      | .vnum n => .ok (.vstr (env.formatCurrency n))
      | .vobj fields => .ok (.vstr (env.stringifyObj fields))
      | _ => .ok v
    else
      match v with
      | .vobj fields => .ok (.vstr (env.stringifyObj fields))
      | _ => .ok v

/-- Embeds `getColumnKeys()` (reportes.ts lines 217-220): the keys of the
first record, or nothing when the result set is empty. -/
def getColumnKeys (datos : List Record) : List String :=
  match datos with
  | [] => []
  | r :: _ => r.map Prod.fst

/-- The fixed header translation table of `formatColumnName` (reportes.ts
lines 223-253). -/
def translations (key : String) : Option String :=
  if key == "id" then some "ID"
  else if key == "name" then some "Nombre"
  else if key == "first_name" then some "Nombre"
  else if key == "last_name" then some "Apellido"
  else if key == "email" then some "Email"
  else if key == "phone" then some "Teléfono"
  else if key == "company" then some "Empresa"
  else if key == "client_type" then some "Tipo Cliente"
  else if key == "status" then some "Estado"
  else if key == "order_number" then some "N° Orden"
  else if key == "client_id" then some "Cliente"
  else if key == "driver_id" then some "Conductor"
  else if key == "vehicle_id" then some "Vehículo"
  else if key == "origin_address" then some "Origen"
  else if key == "destination_address" then some "Destino"
  else if key == "origin_city" then some "Ciudad Origen"
  else if key == "destination_city" then some "Ciudad Destino"
  else if key == "priority" then some "Prioridad"
  else if key == "value" then some "Valor"
  else if key == "tracking_code" then some "Código Rastreo"
  else if key == "license_plate" then some "Placa"
  else if key == "brand" then some "Marca"
  else if key == "model" then some "Modelo"
  else if key == "year" then some "Año"
  else if key == "vehicle_type" then some "Tipo Vehículo"
  else if key == "document_number" then some "Documento"
  else if key == "license_type" then some "Tipo Licencia"
  else if key == "created_at" then some "Fecha Creación"
  else if key == "updated_at" then some "Última Actualización"
  else none

/-- Capitalizes the first character of every word, the effect of the
word-boundary uppercase replacement of `formatColumnName` on
underscore-separated ASCII keys. -/
def capitalizeWords (s : String) : String :=
  String.intercalate " " ((s.splitOn " ").map capitalizeFirst)

/-- Embeds `formatColumnName(key)` (reportes.ts lines 222-256): the
translation table, with the generic humanization (underscores to spaces,
words capitalized) as fallback. -/
def formatColumnName (key : String) : String :=
  match translations key with
  | some t => t
  | none => capitalizeWords (String.intercalate " " (key.splitOn "_"))

/-- Embeds `String(val)` on a formatted cell value. -/
def jsString : JSVal → String
  | .vnull => "null"
  | .vundefined => "undefined"
  | .vstr s => s
  | .vnum n => toString n
  | .vbool b => if b then "true" else "false"
  | .vobj _ => "[object Object]"

/-- One CSV cell: stringify the formatted value and quote it when it
contains a comma (reportes.ts lines 326-330). -/
def csvCell (env : JSEnv) (row : Record) (h : String) : Except String String :=
  match getColumnValue env row h with
  | .error e => .error e
  | .ok v =>
    let strVal := jsString v
    .ok (if strContains strVal "," then "\"" ++ strVal ++ "\"" else strVal)

/-- All cells of one CSV row, left to right. -/
def csvRowCells (env : JSEnv) (row : Record) :
    List String → Except String (List String)
  | [] => .ok []
  | h :: hs =>
    match csvCell env row h with
    | .error e => .error e
    | .ok c =>
      match csvRowCells env row hs with
      | .error e => .error e
      | .ok cs => .ok (c :: cs)

/-- All data rows of the CSV, top to bottom. -/
def csvRows (env : JSEnv) (headers : List String) :
    List Record → Except String (List String)
  | [] => .ok []
  | row :: rows =>
    match csvRowCells env row headers with
    | .error e => .error e
    | .ok cells =>
      match csvRows env headers rows with
      | .error e => .error e
      | .ok rest => .ok (String.intercalate "," cells :: rest)

/-- The `csvContent` string built by `exportarExcel` (reportes.ts lines
322-332): translated header row, then one line per record, joined with
newlines. -/
def csvContent (env : JSEnv) (st : State) : Except String String :=
  let headers := getColumnKeys st.datosReporte
  let headerRow := String.intercalate "," (headers.map formatColumnName)
  match csvRows env headers st.datosReporte with
  | .error e => .error e
  | .ok rows => .ok (String.intercalate "\n" (headerRow :: rows))

/-- Embeds `exportarExcel()` (reportes.ts lines 314-349).  The result is
the new state, the CSV text handed to the download machinery when one was
produced, and whether an error-clearing timer was scheduled.  On an empty
result set the method sets the error message, schedules its clearing and
returns before building any CSV; the `catch` branch does the same with
its own message should the build throw. -/
def exportarExcel (env : JSEnv) (st : State) :
    State × Option String × Bool :=
  if st.datosReporte.length == 0 then
    ({ st with error := some "No hay datos para exportar" }, none, true)
  else
    match csvContent env st with
    | .ok csv => (st, some csv, false)
    | .error _ =>
      ({ st with error := some "Error al exportar CSV" }, none, true)

/-- Predicate used to state the (amended) clients-statistics claim: the
record's status field is a string equal, up to ASCII case, to the Spanish
spelling "activo" that `calcularEstadisticas` compares against. -/
def isActivoRecord (r : Record) : Bool :=
  match jsLookup r "status" with
  | .vstr s => strLower s == "activo"
  | _ => false

/-- An empty filter object, the initial value of `filtros`. -/
def filtrosVacios : Filtros :=
  { fechaInicio := "", fechaFin := "", estado := "", estadoPedido := "",
    tipoVehiculo := "", clienteId := "", conductorId := "" }

/-- A concrete collaborator environment for evaluating the embedding at
specific inputs.  Its `dateParse` rejects every string, which is the
behavior JavaScript's `Date.parse` has on the malformed date strings the
theorems below feed it; the remaining fields are irrelevant to every
theorem that uses this environment. -/
def envTrivial : JSEnv :=
  { dateParse := fun _ => none, renderDate := fun _ => "es-CO",
    formatCurrency := fun _ => "COP", stringifyObj := fun _ => "" }

/-- A concrete state: clients category selected, a status filter of
"activo", nothing loaded yet. -/
def stClientes : State :=
  { tipoReporte := "clientes", datosReporte := [], tituloReporte := "",
    loading := true, error := none,
    filtros := { filtrosVacios with estado := "activo" },
    estadisticasResumen := [] }

/-- The state `onFetchSuccess` produces from `stClientes` when one
inactive record arrives and the status filter removes it. -/
def stClientesFiltradoVacio : State :=
  { stClientes with
    loading := false
    datosReporte := []
    estadisticasResumen := [⟨"Total", 0⟩, ⟨"Activos", 0⟩, ⟨"Inactivos", 0⟩]
    error := some "No hay resultados con los filtros aplicados" }

/-- A concrete clients result set: one record active up to case, one
inactive. -/
def datosClientesW : List Record :=
  [[("status", JSVal.vstr "Activo")], [("status", JSVal.vstr "inactivo")]]

/-- A concrete orders result set: one completed, one pending, one
cancelled (in no bucket). -/
def datosPedidosW : List Record :=
  [[("status", JSVal.vstr "entregado")], [("status", JSVal.vstr "pending")],
   [("status", JSVal.vstr "cancelado")]]

theorem mapStatuses_ok_length : ∀ {datos : List Record} {ss : List (Option String)},
    mapStatuses datos = .ok ss → ss.length = datos.length := by
  intro datos
  induction datos with
  | nil => intro ss h; cases h; rfl
  | cons r rs ih =>
    intro ss h
    unfold mapStatuses at h
    cases hr : statusLowerE r <;> rw [hr] at h
    · exact absurd h (by simp)
    · cases hrs : mapStatuses rs <;> rw [hrs] at h
      · exact absurd h (by simp)
      · cases h
        simp [ih hrs]

theorem mapStatuses_ok_filter (p : Option String → Bool) (q : Record → Bool)
    (hpq : ∀ r os, statusLowerE r = .ok os → p os = q r) :
    ∀ {datos : List Record} {ss : List (Option String)},
    mapStatuses datos = .ok ss → (ss.filter p).length = datos.countP q := by
  intro datos
  induction datos with
  | nil => intro ss h; cases h; rfl
  | cons r rs ih =>
    intro ss h
    unfold mapStatuses at h
    cases hr : statusLowerE r with
    | error e => rw [hr] at h; exact absurd h (by simp)
    | ok os =>
      rw [hr] at h
      cases hrs : mapStatuses rs with
      | error e => rw [hrs] at h; exact absurd h (by simp)
      | ok ss2 =>
        rw [hrs] at h
        cases h
        rw [List.countP_cons, List.filter_cons, ← hpq r os hr]
        by_cases hp : p os = true
        · simp [hp, ih hrs]
        · simp [hp, ih hrs]

theorem length_filter3_le {α : Type} (p q r : α → Bool)
    (hdisj : ∀ a, (if p a then 1 else 0) + (if q a then 1 else 0) + (if r a then 1 else 0) ≤ 1) :
    ∀ l : List α, (l.filter p).length + (l.filter q).length + (l.filter r).length ≤ l.length := by
  intro l
  induction l with
  | nil => simp
  | cons a l ih =>
    have ha := hdisj a
    cases hp : p a <;> cases hq : q a <;> cases hr : r a <;>
      simp [List.filter_cons, hp, hq, hr] at ha ⊢ <;> omega

theorem statusLowerE_activo (r : Record) (os : Option String)
    (h : statusLowerE r = .ok os) : (os == some "activo") = isActivoRecord r := by
  unfold statusLowerE at h
  unfold isActivoRecord
  cases hv : jsLookup r "status" <;> rw [hv] at h <;> first
    | (cases h; rfl)
    | exact absurd h (by simp)

theorem buckets_at_most_one (os : Option String) :
    (if inBucket completadosList os then 1 else 0) +
      (if inBucket enProcesoList os then 1 else 0) +
      (if inBucket pendientesList os then 1 else 0) ≤ 1 := by
  cases os with
  | none => simp [inBucket]
  | some s =>
    simp only [inBucket]
    by_cases hc : completadosList.contains s = true
    · have hs := List.elem_iff.mp hc
      simp only [completadosList, List.mem_cons, List.not_mem_nil, or_false] at hs
      rcases hs with rfl | rfl | rfl <;> decide
    · by_cases he : enProcesoList.contains s = true
      · have hs := List.elem_iff.mp he
        simp only [enProcesoList, List.mem_cons, List.not_mem_nil, or_false] at hs
        rcases hs with rfl | rfl | rfl <;> decide
      · simp only [Bool.not_eq_true] at hc he
        have hc2 : s ∉ completadosList := by simpa using hc
        have he2 : s ∉ enProcesoList := by simpa using he
        simp [hc2, he2]
        split <;> simp

/-- C1: for the orders category (`pedidos`), the query planning of
`generarReporte` selects, in priority order: the date-range endpoint with
`start_date` and `end_date` parameters when both dates are present, else
the client-scoped endpoint with the client identifier as path parameter
when one is present, else the unscoped `/orders` listing endpoint. -/
theorem planQuery_pedidos_priority (f : Filtros) :
    ((truthy f.fechaInicio && truthy f.fechaFin) = true →
      planQuery "pedidos" f =
        (apiUrl ++ "/reports/orders-by-date",
          [("start_date", f.fechaInicio), ("end_date", f.fechaFin)])) ∧
    ((truthy f.fechaInicio && truthy f.fechaFin) = false → truthy f.clienteId = true →
      planQuery "pedidos" f = (apiUrl ++ "/reports/orders-by-client/" ++ f.clienteId, [])) ∧
    ((truthy f.fechaInicio && truthy f.fechaFin) = false → truthy f.clienteId = false →
      planQuery "pedidos" f = (apiUrl ++ "/orders", [])) := by
  refine ⟨fun h1 => ?_, fun h1 h2 => ?_, fun h1 h2 => ?_⟩ <;>
    simp [planQuery, h1]
  · simp [h2]
  · simp [h2]

/-- Witness for `planQuery_pedidos_priority`: the three branches at the
spec's example date range, at a client identifier, and at empty filters. -/
theorem planQuery_pedidos_priority_witness :
    planQuery "pedidos" { filtrosVacios with fechaInicio := "2024-01-01", fechaFin := "2024-01-31" }
      = (apiUrl ++ "/reports/orders-by-date", [("start_date", "2024-01-01"), ("end_date", "2024-01-31")]) ∧
    planQuery "pedidos" { filtrosVacios with clienteId := "7" }
      = (apiUrl ++ "/reports/orders-by-client/" ++ "7", []) ∧
    planQuery "pedidos" filtrosVacios = (apiUrl ++ "/orders", []) :=
  ⟨(planQuery_pedidos_priority _).1 rfl,
   (planQuery_pedidos_priority _).2.1 rfl rfl,
   (planQuery_pedidos_priority _).2.2 rfl rfl⟩

/-- C2 (counterexample): for an unknown category, `generarReporte` is not
a no-op.  Starting from a state with the unknown category "desconocido"
and `loading` off, the synchronous prefix of `generarReporte` flips the
loading flag on — the pipeline state changes — and still hands an HTTP
request (with the empty URL) to `http.get`. -/
theorem generarReporteStart_unknown_category_counterexample :
    ({ stClientes with tipoReporte := "desconocido", loading := false } : State).loading = false ∧
    (generarReporteStart { stClientes with tipoReporte := "desconocido", loading := false }).1.loading = true ∧
    (generarReporteStart { stClientes with tipoReporte := "desconocido", loading := false }).2
      = { url := "", params := [] } :=
  ⟨rfl, rfl, rfl⟩

/-- C2 (amended): for every state whose category is empty or not one of
the four known categories, `generarReporte` selects no known endpoint —
the planned URL is empty and no parameter is set — but it still clears
the error message, raises the loading flag, and issues the fetch with
that empty URL; the result set and statistics are not touched in this
synchronous step. -/
theorem generarReporteStart_unknown_category (st : State)
    (h1 : st.tipoReporte ≠ "pedidos") (h2 : st.tipoReporte ≠ "clientes")
    (h3 : st.tipoReporte ≠ "vehiculos") (h4 : st.tipoReporte ≠ "conductores") :
    generarReporteStart st
      = ({ st with error := none, loading := true }, { url := "", params := [] }) := by
  simp [generarReporteStart, planQuery, h1, h2, h3, h4]

/-- Witness for `generarReporteStart_unknown_category` at the empty
category. -/
theorem generarReporteStart_unknown_category_witness :
    generarReporteStart { stClientes with tipoReporte := "" }
      = ({ stClientes with tipoReporte := "", error := none, loading := true },
         { url := "", params := [] }) :=
  generarReporteStart_unknown_category _ (by decide) (by decide) (by decide) (by decide)

/-- C3 (counterexample): a clients record whose status is the English
string "active" — which the claim's case-insensitive comparison against
"active" matches, `strLower "active" = "active"` — is counted by
`calcularEstadisticas` as inactive: the code compares against the Spanish
"activo", so it reports Activos = 0 and Inactivos = 1 where the claim
demands Active = 1 and Inactive = 0. -/
theorem calcStats_clientes_counterexample :
    strLower "active" = "active" ∧
    calcStats "clientes" [[("status", JSVal.vstr "active")]] []
      = .ok [⟨"Total", 1⟩, ⟨"Activos", 0⟩, ⟨"Inactivos", 1⟩] :=
  ⟨rfl, rfl⟩

/-- C3 (amended): for every clients result set, the statistics are
exactly, in order: Total = the number of records; Activos = the number of
records whose status field equals the Spanish spelling "activo" under
case-insensitive comparison; Inactivos = Total minus Activos. -/
theorem calcStats_clientes_formula (datos : List Record) (prev stats : List Stat)
    (h : calcStats "clientes" datos prev = .ok stats) :
    stats = [⟨"Total", datos.length⟩,
             ⟨"Activos", datos.countP isActivoRecord⟩,
             ⟨"Inactivos", datos.length - datos.countP isActivoRecord⟩] := by
  simp only [calcStats] at h
  rw [if_neg (by decide), if_pos (by decide)] at h
  cases hms : mapStatuses datos with
  | error e => rw [hms] at h; exact absurd h (by simp)
  | ok ss =>
    rw [hms] at h
    cases h
    rw [mapStatuses_ok_filter _ isActivoRecord statusLowerE_activo hms]

/-- Witness for `calcStats_clientes_formula` on a two-record result set
with one record active up to case. -/
theorem calcStats_clientes_formula_witness :
    ([⟨"Total", 2⟩, ⟨"Activos", 1⟩, ⟨"Inactivos", 1⟩] : List Stat)
      = [⟨"Total", datosClientesW.length⟩,
         ⟨"Activos", datosClientesW.countP isActivoRecord⟩,
         ⟨"Inactivos", datosClientesW.length - datosClientesW.countP isActivoRecord⟩] :=
  calcStats_clientes_formula datosClientesW [] _ rfl

/-- C4: `getColumnValue` is not total — at the record whose status field
holds the number 42 it evaluates `value?.toLowerCase()` on a number, and
optional chaining does not guard that call, so a `TypeError` is thrown
instead of a display value being returned. -/
theorem getColumnValue_numeric_status_throws :
    getColumnValue envTrivial [("status", JSVal.vnum 42)] "status"
      = Except.error "TypeError: toLowerCase is not a function" := rfl

/-- C5: when the fetch succeeds with a non-empty raw result set and the
category filter reduces it to zero rows, the success callback stores the
transient informational message, schedules its automatic clearing, leaves
the loading flag off (the state is Ready, not Failed), the cleared state
has no message, and the statistics stored are exactly the ones
`calcStats` computes over the empty result set. -/
theorem onFetchSuccess_empty_after_filter (st : State) (data : List Record)
    (st' : State) (sched : Bool)
    (h : onFetchSuccess st data = .ok (st', sched))
    (hdata : data ≠ []) (hempty : st'.datosReporte = []) :
    st'.error = some "No hay resultados con los filtros aplicados" ∧
    sched = true ∧ st'.loading = false ∧ (clearError st').error = none ∧
    calcStats st.tipoReporte [] st.estadisticasResumen = .ok st'.estadisticasResumen := by
  simp only [onFetchSuccess, calcularEstadisticas] at h
  cases haf : aplicarFiltros st.tipoReporte st.filtros data with
  | error e => rw [haf] at h; exact absurd h (by simp)
  | ok df =>
    rw [haf] at h
    dsimp only at h
    cases hcs : calcStats st.tipoReporte df st.estadisticasResumen with
    | error e => rw [hcs] at h; exact absurd h (by simp)
    | ok stats =>
      rw [hcs] at h
      dsimp only at h
      by_cases hcond : (df.length == 0 && decide (data.length > 0)) = true
      · rw [if_pos hcond] at h
        injection h with h1
        rw [Prod.mk.injEq] at h1
        obtain ⟨h2, h3⟩ := h1
        subst h2
        subst h3
        simp only [Bool.and_eq_true, beq_iff_eq, List.length_eq_zero,
          decide_eq_true_eq] at hcond
        obtain ⟨hdf, hpos⟩ := hcond
        subst hdf
        exact ⟨rfl, rfl, rfl, rfl, hcs⟩
      · rw [if_neg hcond] at h
        injection h with h1
        rw [Prod.mk.injEq] at h1
        obtain ⟨h2, h3⟩ := h1
        subst h2
        dsimp only at hempty
        subst hempty
        have hlen := List.length_pos.mpr hdata
        exfalso
        apply hcond
        simp [hlen]

/-- Witness for `onFetchSuccess_empty_after_filter`: one inactive record
arrives while the clients status filter asks for "activo". -/
theorem onFetchSuccess_empty_after_filter_witness :
    stClientesFiltradoVacio.error = some "No hay resultados con los filtros aplicados" ∧
    true = true ∧
    stClientesFiltradoVacio.loading = false ∧
    (clearError stClientesFiltradoVacio).error = none ∧
    calcStats stClientes.tipoReporte [] stClientes.estadisticasResumen
      = .ok stClientesFiltradoVacio.estadisticasResumen :=
  onFetchSuccess_empty_after_filter stClientes [[("status", JSVal.vstr "inactivo")]]
    stClientesFiltradoVacio true rfl (List.cons_ne_nil _ _) rfl

/-- C6 (counterexample): invoking the CSV exporter on a state with an
empty result set produces no CSV, but it does not leave the pipeline
state unchanged: the shared error field goes from `none` to the export
message. -/
theorem exportarExcel_empty_counterexample :
    stClientes.error = none ∧
    (exportarExcel envTrivial stClientes).1.error = some "No hay datos para exportar" ∧
    (exportarExcel envTrivial stClientes).2.1 = none :=
  ⟨rfl, rfl, rfl⟩

/-- C6 (amended): on an empty result set the exporter refuses to run: no
CSV text is produced, the result set, statistics, loading flag, category
and filters are untouched, but the pipeline's error field is set to the
export-precondition message and a timer is scheduled to clear it. -/
theorem exportarExcel_empty_guard (env : JSEnv) (st : State)
    (h : st.datosReporte = []) :
    exportarExcel env st
      = ({ st with error := some "No hay datos para exportar" }, none, true) := by
  simp [exportarExcel, h]

/-- Witness for `exportarExcel_empty_guard` at the concrete empty state. -/
theorem exportarExcel_empty_guard_witness :
    exportarExcel envTrivial stClientes
      = ({ stClientes with error := some "No hay datos para exportar" }, none, true) :=
  exportarExcel_empty_guard envTrivial stClientes rfl

/-- C7: whatever the prior state, selecting a category resets the result
set to empty, the statistics to empty, and the error message to null. -/
theorem seleccionarReporte_resets (st : State) (tipo : String) :
    (seleccionarReporte st tipo).datosReporte = [] ∧
    (seleccionarReporte st tipo).estadisticasResumen = [] ∧
    (seleccionarReporte st tipo).error = none :=
  ⟨rfl, rfl, rfl⟩

/-- C8: at a date-like key holding a string no date grammar accepts, the
formatter returns the fixed rendering "Invalid Date" of the invalid
timestamp, which is not the raw value — the claimed return of the raw
value unchanged on parse failure does not happen (the catch branch meant
to do it is unreachable). -/
theorem getColumnValue_unparseable_date_not_raw :
    getColumnValue envTrivial [("created_at", JSVal.vstr "not-a-date")] "created_at"
      = Except.ok (JSVal.vstr "Invalid Date") ∧
    JSVal.vstr "Invalid Date" ≠ JSVal.vstr "not-a-date" :=
  ⟨rfl, by simp⟩

/-- C9: the three orders status buckets are pairwise disjoint lists of
spellings, and consequently the statistics row for orders always
satisfies Completados + En Proceso + Pendientes ≤ Total. -/
theorem calcStats_pedidos_buckets (datos : List Record) (prev stats : List Stat)
    (h : calcStats "pedidos" datos prev = .ok stats) :
    (completadosList.all (fun s => !(pendientesList.contains s || enProcesoList.contains s)) &&
      pendientesList.all (fun s => !(enProcesoList.contains s))) = true ∧
    ∃ c e p, stats = [⟨"Total", datos.length⟩, ⟨"Completados", c⟩,
        ⟨"En Proceso", e⟩, ⟨"Pendientes", p⟩] ∧ c + e + p ≤ datos.length := by
  refine ⟨by decide, ?_⟩
  simp only [calcStats] at h
  rw [if_pos (by decide)] at h
  cases hms : mapStatuses datos with
  | error e => rw [hms] at h; exact absurd h (by simp)
  | ok ss =>
    rw [hms] at h
    cases h
    refine ⟨_, _, _, rfl, ?_⟩
    have hle := length_filter3_le (inBucket completadosList) (inBucket enProcesoList)
      (inBucket pendientesList) buckets_at_most_one ss
    rw [mapStatuses_ok_length hms] at hle
    exact hle

/-- Witness for `calcStats_pedidos_buckets` on a three-record orders
result set (one completed, one pending, one in no bucket). -/
theorem calcStats_pedidos_buckets_witness :
    (completadosList.all (fun s => !(pendientesList.contains s || enProcesoList.contains s)) &&
      pendientesList.all (fun s => !(enProcesoList.contains s))) = true ∧
    ∃ c e p, ([⟨"Total", 3⟩, ⟨"Completados", 1⟩, ⟨"En Proceso", 0⟩, ⟨"Pendientes", 1⟩] : List Stat)
        = [⟨"Total", datosPedidosW.length⟩, ⟨"Completados", c⟩,
           ⟨"En Proceso", e⟩, ⟨"Pendientes", p⟩] ∧ c + e + p ≤ datosPedidosW.length :=
  calcStats_pedidos_buckets datosPedidosW [] _ rfl

/-- C10: selecting a category leaves the filter criteria — all seven
fields — and the loading flag unchanged. -/
theorem seleccionarReporte_frame (st : State) (tipo : String) :
    (seleccionarReporte st tipo).filtros = st.filtros ∧
    (seleccionarReporte st tipo).loading = st.loading :=
  ⟨rfl, rfl⟩
